import Mathlib

/-!
Verification of the message boxing core (`go/chat/boxer.go`).

The Go source is embedded shallowly:

* byte strings are `List Nat`;
* the msgpack codec, SHA-256, NaCl secretbox and Ed25519 are modelled
  symbolically by the free term algebra `PackedData` together with an
  executable fingerprint serialiser, so that sealing, opening, hashing,
  signing and verifying are all computable and deterministic;
* collaborator interfaces (key finder, user loader, merkle client and the
  replay-guard checkers) are bundled in an `Env` record of pure functions;
* the Go nil pointer is `Option`, and a nil-pointer dereference is made
  explicit by the `GoResult.panic` outcome;
* fallible Go functions return `Except`.

Field and function names follow the source. The random nonces drawn by
`seal` are passed in as explicit arguments (the source always draws
24 bytes).
-/

/-- Byte strings ([]byte in Go). A faithful byte-level model is not needed;
lists of naturals keep every operation executable. -/
abbrev Bytes := List Nat

/-- chat1.Hash: the output of the versioned content hash. -/
abbrev Hash := Bytes

/-- chat1.ConversationID. -/
abbrev ConversationID := Nat

/-- chat1.MessageID. -/
abbrev MessageID := Nat

/-- gregor1.UID, kept opaque. -/
abbrev UID := Nat

/-- gregor1.DeviceID, kept opaque. -/
abbrev DeviceID := Nat

/-- keybase1.CryptKey: a key generation paired with a 32-byte symmetric key. -/
structure CryptKey where
  keyGeneration : Nat
  key : Bytes
deriving DecidableEq, Repr

/-- publicCryptKey: the all-zero sentinel key of generation 1 used for
public conversations (`init` block of boxer.go). -/
def publicCryptKey : CryptKey :=
  { keyGeneration := 1, key := List.replicate 32 0 }

/-- chat1.SignatureInfo: version, detached signature bytes, and the KID of
the signing key. -/
structure SignatureInfo where
  v : Nat
  s : Bytes
  k : Bytes
deriving DecidableEq, Repr

/-- chat1.MessagePreviousPointer: a prev pointer (message id, header hash). -/
structure MessagePreviousPointer where
  id : MessageID
  hash : Hash
deriving DecidableEq, Repr

/-- chat1.MerkleRoot: seqno and root hash of a merkle tree snapshot. -/
structure MerkleRoot where
  seqno : Nat
  hash : Bytes
deriving DecidableEq, Repr

/-- chat1.MessageClientHeader. `conv` stands for the ConversationIDTriple,
`messageType` for the MessageType enum and `outboxInfo` for the optional
OutboxInfo record, all kept opaque. -/
structure MessageClientHeader where
  conv : Nat
  tlfName : String
  tlfPublic : Bool
  messageType : Nat
  prev : List MessagePreviousPointer
  sender : UID
  senderDevice : DeviceID
  merkleRoot : Option MerkleRoot
  outboxInfo : Option Nat
  outboxID : Option Bytes
deriving DecidableEq, Repr

/-- chat1.MessageServerHeader (the fields read by the boxer). -/
structure MessageServerHeader where
  messageID : MessageID
  supersededBy : MessageID
  ctime : Int
deriving DecidableEq, Repr

/-- chat1.MessageBody: a tagged union over message kinds that the boxer
treats opaquely. `none` is the zero (unset) union value. -/
abbrev MessageBody := Option Nat

/-- chat1.MessagePlaintext. -/
structure MessagePlaintext where
  clientHeader : MessageClientHeader
  messageBody : MessageBody
deriving DecidableEq, Repr

/-- chat1.BodyPlaintextV1. -/
structure BodyPlaintextV1 where
  messageBody : MessageBody
deriving DecidableEq, Repr

/-- chat1.BodyPlaintext: version-tagged sum. Versions other than 1 are
decodable only as an unsupported variant carrying the MetaInfo critical
flag; they are collapsed into one constructor holding the version tag. -/
inductive BodyPlaintext where
  | v1 : BodyPlaintextV1 → BodyPlaintext
  | unsupported : Nat → Bool → BodyPlaintext
deriving DecidableEq, Repr

/-- chat1.HeaderPlaintextV1. -/
structure HeaderPlaintextV1 where
  conv : Nat
  tlfName : String
  tlfPublic : Bool
  messageType : Nat
  prev : List MessagePreviousPointer
  sender : UID
  senderDevice : DeviceID
  bodyHash : Hash
  outboxInfo : Option Nat
  outboxID : Option Bytes
  headerSignature : Option SignatureInfo
deriving DecidableEq, Repr

/-- chat1.HeaderPlaintext: version-tagged sum, as for the body. -/
inductive HeaderPlaintext where
  | v1 : HeaderPlaintextV1 → HeaderPlaintext
  | unsupported : Nat → Bool → HeaderPlaintext
deriving DecidableEq, Repr

/-- Version tag of a header plaintext (HeaderPlaintext.Version). -/
def HeaderPlaintext.version : HeaderPlaintext → Nat
  | .v1 _ => 1
  | .unsupported v _ => v

/-- Version tag of a body plaintext (BodyPlaintext.Version). -/
def BodyPlaintext.version : BodyPlaintext → Nat
  | .v1 _ => 1
  | .unsupported v _ => v

/-- The NaCl signing keypair: the public key fingerprint (KID) and a seed
standing for the secret half. -/
structure NaclSigningKeyPair where
  kid : Bytes
  sec : Nat
deriving DecidableEq, Repr

/-- libkb.SignaturePrefixChat: the domain-separation string. -/
def SignaturePrefixChat : String := "Keybase-Chat-2"

/-- Symbolic byte strings produced by the codec and the sealer. `mBody`,
`mHeader` and `mHeaderV1` are the msgpack encodings of the three record
types the boxer marshals; `sealedBox` is a secretbox ciphertext recording
the packed plaintext, the symmetric key and the nonce it was produced
with; `raw` embeds literal bytes (in particular the empty byte string the
server substitutes for a deleted body). -/
inductive PackedData where
  | mBody : BodyPlaintext → PackedData
  | mHeader : HeaderPlaintext → PackedData
  | mHeaderV1 : HeaderPlaintextV1 → PackedData
  | sealedBox : PackedData → CryptKey → Bytes → PackedData
  | raw : Bytes → PackedData
deriving DecidableEq, Repr

/-- Length-prefixed byte-string serialisation. -/
def serBytes (b : Bytes) : Bytes := b.length :: b

/-- Serialisation of a string, through its character codes. -/
def serString (s : String) : Bytes := serBytes (s.toList.map Char.toNat)

/-- Serialisation of an optional natural. -/
def serOptNat : Option Nat → Bytes
  | none => [0]
  | some n => [1, n]

/-- Serialisation of optional bytes. -/
def serOptBytes : Option Bytes → Bytes
  | none => [0]
  | some b => 1 :: serBytes b

/-- Serialisation of a signature info record. -/
def serSig (si : SignatureInfo) : Bytes :=
  si.v :: serBytes si.s ++ serBytes si.k

/-- Serialisation of an optional signature info. -/
def serOptSig : Option SignatureInfo → Bytes
  | none => [0]
  | some si => 1 :: serSig si

/-- Serialisation of a prev-pointer list. -/
def serPrev (l : List MessagePreviousPointer) : Bytes :=
  l.length :: l.foldr (fun p acc => p.id :: serBytes p.hash ++ acc) []

/-- Serialisation of a body plaintext. -/
def serBodyPlaintext : BodyPlaintext → Bytes
  | .v1 b => 1 :: serOptNat b.messageBody
  | .unsupported v c => [2, v, if c then 1 else 0]

/-- Serialisation of a bare HeaderPlaintextV1 record. -/
def serHeaderV1 (h : HeaderPlaintextV1) : Bytes :=
  h.conv :: serString h.tlfName ++ [if h.tlfPublic then 1 else 0, h.messageType]
    ++ serPrev h.prev ++ [h.sender, h.senderDevice] ++ serBytes h.bodyHash
    ++ serOptNat h.outboxInfo ++ serOptBytes h.outboxID ++ serOptSig h.headerSignature

/-- Serialisation of a header plaintext sum value. -/
def serHeaderPlaintext : HeaderPlaintext → Bytes
  | .v1 h => 1 :: serHeaderV1 h
  | .unsupported v c => [2, v, if c then 1 else 0]

/-- Serialisation of a crypt key. -/
def serKey (k : CryptKey) : Bytes := k.keyGeneration :: serBytes k.key

/-- Fingerprint of a packed datum: an executable stand-in for the byte
string a real codec would produce. Each constructor is tagged so distinct
terms keep distinct fingerprints. -/
def serPacked : PackedData → Bytes
  | .mBody b => 1 :: serBodyPlaintext b
  | .mHeader h => 2 :: serHeaderPlaintext h
  | .mHeaderV1 h => 3 :: serHeaderV1 h
  | .sealedBox d k n => 4 :: serKey k ++ serBytes n ++ serPacked d
  | .raw b => 5 :: serBytes b

/-- hashSha256V1: the versioned content hash (V1 = SHA-256 over the
ciphertext bytes). SHA-256 itself is modelled by the injective tagged
fingerprint of the input. -/
def hashV1 (data : PackedData) : Hash := 0 :: serPacked data

/-- Whether a ciphertext field holds the empty byte string
(`len(msg.BodyCiphertext.E) == 0` in the source); a secretbox output or a
codec output is never empty. -/
def PackedData.isEmptyBytes : PackedData → Bool
  | .raw b => b.isEmpty
  | _ => false

/-- chat1.EncryptedData: version, ciphertext bytes, nonce. -/
structure EncryptedData where
  v : Nat
  e : PackedData
  n : Bytes
deriving DecidableEq, Repr

/-- libkb.NaclDHNonceSize. -/
def NaclDHNonceSize : Nat := 24

/-- Go error values produced by the boxer or handed back by its
collaborators. Errors created from literal format strings in boxer.go get
a constructor each; `external` stands for an arbitrary error produced by a
collaborator. -/
inductive GoErr where
  | external : String → GoErr
  | noMerkleClient
  | noKeyForGeneration : Nat → GoErr
  | decryptBadNonce
  | decryptOpen
  | unmarshalFailure
  | bodyHashInvalid
  | badSig : String → GoErr
  | noKey : String → GoErr
  | headerVersionError : Nat → Bool → GoErr
  | bodyVersionError : Nat → Bool → GoErr
  | nilServerHeader
  | emptyBodyNotSuperseded
  | zeroClockOnExpiredKey
  | noCachedUserLoader
deriving DecidableEq, Repr

/-- The message string of each error (the Go Error method), used where
the source stores `err.Error()`. -/
def GoErr.errorString : GoErr → String
  | .external s => s
  | .noMerkleClient => "no MerkleClient available"
  | .noKeyForGeneration g => "no key found for generation " ++ toString g
  | .decryptBadNonce => "bad nonce"
  | .decryptOpen => "failed to decrypt: open error"
  | .unmarshalFailure => "msgpack decode error"
  | .bodyHashInvalid => "body hash invalid"
  | .badSig s => s
  | .noKey s => s
  | .headerVersionError v _ => "unhandled header version: " ++ toString v
  | .bodyVersionError v _ => "unhandled body version: " ++ toString v
  | .nilServerHeader => "nil ServerHeader in MessageBoxed"
  | .emptyBodyNotSuperseded => "empty body and not superseded in MessageBoxed"
  | .zeroClockOnExpiredKey => "zero clock time on expired key"
  | .noCachedUserLoader => "no CachedUserLoader available in context"

/-- The function `seal` of boxer.go: encode the plaintext and encrypt it
with a fresh 24-byte nonce. Named `sealBox` because `seal` is a Lean
keyword. Marshalling is done by the caller here, and the nonce the Go
code draws from the RNG is an explicit argument. -/
def sealBox (packed : PackedData) (key : CryptKey) (nonce : Bytes) : EncryptedData :=
  { v := 1, e := .sealedBox packed key nonce, n := nonce }

/-- The function `open` of boxer.go: decrypt chat1.EncryptedData. Named
`openBox` because `open` is a Lean keyword. Fails with DecryptBadNonce
when the nonce field is not 24 bytes, and with DecryptOpen when
authentication fails, that is, when the ciphertext was not produced under
this key with this nonce. -/
def openBox (data : EncryptedData) (key : CryptKey) : Except GoErr PackedData :=
  if data.n.length ≠ NaclDHNonceSize then .error .decryptBadNonce
  else
    match data.e with
    | .sealedBox pt k n => if k = key ∧ n = data.n then .ok pt else .error .decryptOpen
    | _ => .error .decryptOpen

/-- The detached signature bytes of an ideal Ed25519 signature: determined
by the domain prefix, the signed payload and the signing key (identified
by its KID), and by nothing else. -/
def mkSigBytes (pfx : String) (payload : PackedData) (kid : Bytes) : Bytes :=
  7 :: serString pfx ++ serBytes (serPacked payload) ++ serBytes kid

/-- The function `sign` of boxer.go (via kp.SignV2): a version-2 detached
signature over the prefixed payload. Signing never fails in the model. -/
def signV2 (msg : PackedData) (kp : NaclSigningKeyPair) (pfx : String) : SignatureInfo :=
  { v := 2, s := mkSigBytes pfx msg kp.kid, k := kp.kid }

/-- signMarshal: marshal the bare V1 header record, then sign it. -/
def signMarshal (data : HeaderPlaintextV1) (kp : NaclSigningKeyPair) (pfx : String) :
    SignatureInfo :=
  signV2 (.mHeaderV1 data) kp pfx

/-- The function `verify` of boxer.go: check a detached signature over the
given payload against the KID carried in the signature info. -/
def verify (data : PackedData) (si : SignatureInfo) (pfx : String) : Bool :=
  si.s = mkSigBytes pfx data si.k

/-- unmarshal into a chat1.BodyPlaintext. -/
def unmarshalBody : PackedData → Except GoErr BodyPlaintext
  | .mBody b => .ok b
  | _ => .error .unmarshalFailure

/-- unmarshal into a chat1.HeaderPlaintext. -/
def unmarshalHeader : PackedData → Except GoErr HeaderPlaintext
  | .mHeader h => .ok h
  | _ => .error .unmarshalFailure

/-- chat1.MessageBoxed: the sealed envelope. `serverHeader` is a nullable
pointer in Go, hence an `Option`. -/
structure MessageBoxed where
  serverHeader : Option MessageServerHeader
  clientHeader : MessageClientHeader
  headerCiphertext : EncryptedData
  bodyCiphertext : EncryptedData
  keyGeneration : Nat
deriving DecidableEq, Repr

/-- UnboxingError (errors.go, outside this tree; constructors and the
permanent/transient split are used by boxer.go). A permanent error wraps
the inner Go error it was built from; Go lets that inner error be nil,
which the model keeps as an `Option`. -/
inductive UnboxingError where
  | permanent : Option GoErr → UnboxingError
  | transient : GoErr → UnboxingError
deriving DecidableEq, Repr

/-- IsPermanent on an unboxing error. -/
def UnboxingError.IsPermanent : UnboxingError → Bool
  | .permanent _ => true
  | .transient _ => false

/-- Modelled from the spec: the error taxonomy of section 4.8 exported to
stored error records (ExportType lives in errors.go, outside this tree). -/
inductive MessageUnboxedErrorType where
  | misc
  | badVersionCritical
  | badVersion
  | identity
  | ephemeral
deriving DecidableEq, Repr

/-- Modelled from the spec: ExportType classifies an unboxing error for
persistence (section 4.8 taxonomy). -/
def UnboxingError.ExportType : UnboxingError → MessageUnboxedErrorType
  | .transient _ => .ephemeral
  | .permanent none => .misc
  | .permanent (some e) =>
    match e with
    | .headerVersionError _ crit => if crit then .badVersionCritical else .badVersion
    | .bodyVersionError _ crit => if crit then .badVersionCritical else .badVersion
    | .noKey _ => .identity
    | .badSig _ => .identity
    | _ => .misc

/-- The Error method of an unboxing error, for the ErrMsg field of a
stored record. -/
def UnboxingError.errorMsg : UnboxingError → String
  | .permanent (some e) => e.errorString
  | .permanent none => ""
  | .transient e => e.errorString

/-- BoxingError and BoxingCryptKeysError (errors.go, outside this tree;
boxer.go builds them from a message string and a permanent flag, or from
the key-resolution error). -/
inductive BoxErr where
  | boxingError : String → Bool → BoxErr
  | boxingCryptKeysError : GoErr → BoxErr
deriving DecidableEq, Repr

/-- chat1.MessageUnboxedError: the stored error record for a permanently
failed message. -/
structure MessageUnboxedError where
  errType : MessageUnboxedErrorType
  errMsg : String
  messageID : MessageID
  messageType : Nat
  ctime : Int
deriving DecidableEq, Repr

/-- chat1.MessageUnboxedValid. -/
structure MessageUnboxedValid where
  clientHeader : MessageClientHeader
  serverHeader : MessageServerHeader
  messageBody : MessageBody
  senderUsername : String
  senderDeviceName : String
  senderDeviceType : String
  bodyHash : Hash
  headerHash : Hash
  headerSignature : Option SignatureInfo
  senderDeviceRevokedAt : Option Int
deriving DecidableEq, Repr

/-- chat1.MessageUnboxed: either a valid record or a stored error record. -/
inductive MessageUnboxed where
  | valid : MessageUnboxedValid → MessageUnboxed
  | error : MessageUnboxedError → MessageUnboxed
deriving DecidableEq, Repr

/-- Outcome of running a piece of Go code that may dereference a nil
pointer: either a runtime panic or a value. -/
inductive GoResult (α : Type) where
  | panic : String → GoResult α
  | ok : α → GoResult α
deriving DecidableEq, Repr

/-- keybase1.GetTLFCryptKeysRes, as consumed by the boxer: the canonical
TLF name and the key list. -/
structure FindRes where
  canonicalName : String
  cryptKeys : List CryptKey
deriving DecidableEq, Repr

/-- The collaborators of the Boxer, bundled as pure functions:
KeyFinder.Find, the UPAK loader (LookupUsernameAndDevice, LookupUsername,
CheckKIDForUID — the latter returning found, revocation time in
milliseconds, and the deleted flag), MerkleClient.LastRootInfo, and the
two replay-guard checkers a Boxer is constructed with. -/
structure Env where
  keyFinderFind : String → Bool → Except GoErr FindRes
  merkleClientAvailable : Bool
  lastRootInfo : Except GoErr (Option MerkleRoot)
  hasUPAKLoader : Bool
  lookupUsernameAndDevice : UID → DeviceID → Except GoErr (String × String × String)
  lookupUsername : UID → Except GoErr String
  checkKIDForUID : UID → Bytes → Except GoErr (Bool × Option Int × Bool)
  bodyHashChecker : Hash → MessageID → ConversationID → Option GoErr
  prevChecker : MessageID → ConversationID → Hash → Option GoErr

/-- chat1.ConversationFinalizeInfo, reduced to the reset suffix it
contributes to an expanded TLF name. -/
structure ConversationFinalizeInfo where
  resetSuffix : String
deriving DecidableEq, Repr

/-- Modelled from the spec: TLFNameExpanded (generated code outside this
tree) injects a historical reset-user suffix into the TLF name when
finalize info is present. -/
def TLFNameExpanded (h : MessageClientHeader) (fi : Option ConversationFinalizeInfo) :
    String :=
  match fi with
  | none => h.tlfName
  | some f => h.tlfName ++ f.resetSuffix

/-- latestMerkleRoot: fetch the last known merkle root snapshot; may
return none without error when no root is available. -/
def latestMerkleRoot (env : Env) : Except GoErr (Option MerkleRoot) :=
  if env.merkleClientAvailable = false then .error .noMerkleClient
  else env.lastRootInfo

/-- keybase1KeybaseTimeToTime: a revocation time in milliseconds turned
into a (seconds, nanoseconds) clock value, as time.Unix(u/1e3, (u%1e3)*1e6). -/
def keybase1KeybaseTimeToTime (u : Int) : Int × Int :=
  (u / 1000, (u % 1000) * 1000000)

/-- gregor1.ToTime: milliseconds of a clock value. -/
def gregorToTime (t : Int × Int) : Int := t.1 * 1000 + t.2 / 1000000

/-- t.After(c): strict comparison of a clock value against a time given in
milliseconds (both sides carry millisecond precision). -/
def timeAfter (t : Int × Int) (ctimeMs : Int) : Bool :=
  decide (ctimeMs < gregorToTime t)

/-- ValidSenderKey: checks that the signing key was active for the sender
at the server ctime. Returns (found, validAtCtime, revoked). The hex
round-trip of the UID never fails in the model and is elided. -/
def ValidSenderKey (env : Env) (sender : UID) (key : Bytes) (ctime : Int) :
    Except UnboxingError (Bool × Bool × Option Int) :=
  if env.hasUPAKLoader = false then
    .error (.transient .noCachedUserLoader)
  else
    match env.checkKIDForUID sender key with
    | .error e => .error (.transient e)
    | .ok (found, revokedAt, deleted) =>
      if found = false then .ok (false, false, none)
      else if deleted then
        -- key deleted with the user: treat as revoked since the beginning
        -- of time and keep going
        .ok (true, true, some 0)
      else
        match revokedAt with
        | none => .ok (true, true, none)
        | some r =>
          if r = 0 then .error (.permanent (some .zeroClockOnExpiredKey))
          else
            let t := keybase1KeybaseTimeToTime r
            .ok (true, timeAfter t ctime, some (gregorToTime t))

/-- verifyMessageRes of boxer.go. -/
structure VerifyMessageRes where
  senderDeviceRevokedAt : Option Int
deriving DecidableEq, Repr

/-- verifyMessageHeaderV1: body hash, header signature and signing key
validity checks. The Go code dereferences `header.HeaderSignature` and
`msg.ServerHeader` without nil checks; those dereferences surface as
`GoResult.panic`. Marshalling never fails in the model, so the
marshal-error branch is dead. -/
def verifyMessageHeaderV1 (env : Env) (header : HeaderPlaintextV1) (msg : MessageBoxed)
    (skipBodyVerification : Bool) : GoResult (Except UnboxingError VerifyMessageRes) :=
  if skipBodyVerification = false ∧ hashV1 msg.bodyCiphertext.e ≠ header.bodyHash then
    .ok (.error (.permanent (some .bodyHashInvalid)))
  else
    -- copy the header, null the signature field, and re-encode
    let hpack := PackedData.mHeaderV1 { header with headerSignature := none }
    match header.headerSignature with
    | none => .panic "nil HeaderSignature dereference"
    | some hsig =>
      if verify hpack hsig SignaturePrefixChat = false then
        .ok (.error (.permanent (some (.badSig "header signature invalid"))))
      else
        match msg.serverHeader with
        | none => .panic "nil ServerHeader dereference"
        | some sh =>
          match ValidSenderKey env header.sender hsig.k sh.ctime with
          | .error ierr => .ok (.error ierr)
          | .ok (found, validAtCtime, revoked) =>
            if found = false then
              .ok (.error (.permanent (some (.noKey "sender key not found"))))
            else if validAtCtime = false then
              .ok (.error (.permanent (some (.noKey "key invalid for sender at message ctime"))))
            else
              .ok (.ok { senderDeviceRevokedAt := revoked })

/-- headerUnsupported: the critical flag carried by an unsupported header
variant; versions 2 to 10 expose the decoded MetaInfo flag, anything else
falls through to the default branch returning critical. -/
def headerUnsupported (headerVersion : Nat) (header : HeaderPlaintext) : Bool :=
  match header with
  | .unsupported _ c => if 2 ≤ headerVersion ∧ headerVersion ≤ 10 then c else true
  | .v1 _ => true

/-- bodyUnsupported, as for the header. -/
def bodyUnsupported (bodyVersion : Nat) (body : BodyPlaintext) : Bool :=
  match body with
  | .unsupported _ c => if 2 ≤ bodyVersion ∧ bodyVersion ≤ 10 then c else true
  | .v1 _ => true

/-- verifyMessage: dispatch on the header version. -/
def verifyMessage (env : Env) (header : HeaderPlaintext) (msg : MessageBoxed)
    (skipBodyVerification : Bool) : GoResult (Except UnboxingError VerifyMessageRes) :=
  match header with
  | .v1 hp => verifyMessageHeaderV1 env hp msg skipBodyVerification
  | .unsupported v c =>
    .ok (.error (.permanent (some (.headerVersionError v
      (headerUnsupported v (.unsupported v c))))))

/-- unboxMessageWithKeyRes of boxer.go. -/
structure UnboxMessageWithKeyRes where
  messagePlaintext : MessagePlaintext
  bodyHash : Hash
  headerHash : Hash
  headerSignature : Option SignatureInfo
  senderDeviceRevokedAt : Option Int
deriving DecidableEq, Repr

/-- The client header rebuilt from a decrypted V1 header plaintext. The
merkle root field of MessageClientHeader is not part of the header
plaintext and is left at its zero value. -/
def clientHeaderOfV1 (hp : HeaderPlaintextV1) : MessageClientHeader :=
  { conv := hp.conv
    tlfName := hp.tlfName
    tlfPublic := hp.tlfPublic
    messageType := hp.messageType
    prev := hp.prev
    sender := hp.sender
    senderDevice := hp.senderDevice
    merkleRoot := none
    outboxInfo := hp.outboxInfo
    outboxID := hp.outboxID }

/-- unboxMessageWithKey: open and verify an envelope under a crypt key.
Errors follow the source: every failure on this path is permanent. The
nil-ServerHeader guard at the top makes the later ctime dereference safe. -/
def unboxMessageWithKey (env : Env) (msg : MessageBoxed) (key : CryptKey) :
    GoResult (Except UnboxingError UnboxMessageWithKeyRes) :=
  if msg.serverHeader = none then
    .ok (.error (.permanent (some .nilServerHeader)))
  else
    let headerHash := hashV1 msg.headerCiphertext.e
    -- decrypt body (or require supersession when the body bytes are empty)
    let bodyStep : Except UnboxingError (Bool × Option BodyPlaintext) :=
      if msg.bodyCiphertext.e.isEmptyBytes then
        match msg.serverHeader with
        | some sh =>
          if sh.supersededBy = 0 then .error (.permanent (some .emptyBodyNotSuperseded))
          else .ok (true, none)
        | none => .ok (true, none)
      else
        match openBox msg.bodyCiphertext key with
        | .error e => .error (.permanent (some e))
        | .ok packedBody =>
          match unmarshalBody packedBody with
          | .error e => .error (.permanent (some e))
          | .ok body => .ok (false, some body)
    match bodyStep with
    | .error e => .ok (.error e)
    | .ok (skipBodyVerification, body) =>
      -- decrypt header
      match openBox msg.headerCiphertext key with
      | .error e => .ok (.error (.permanent (some e)))
      | .ok packedHeader =>
        match unmarshalHeader packedHeader with
        | .error e => .ok (.error (.permanent (some e)))
        | .ok header =>
          -- verify the message
          match verifyMessage env header msg skipBodyVerification with
          | .panic p => .panic p
          | .ok (.error ierr) => .ok (.error ierr)
          | .ok (.ok validity) =>
            -- dispatch on the header version
            match header with
            | .unsupported v c =>
              .ok (.error (.permanent (some (.headerVersionError v
                (headerUnsupported v (.unsupported v c))))))
            | .v1 hp =>
              let headerSignature := hp.headerSignature
              let bodyHash := hp.bodyHash
              let clientHeader := clientHeaderOfV1 hp
              if skipBodyVerification then
                -- body deleted: return an empty body for the V1 header
                .ok (.ok
                  { messagePlaintext := { clientHeader := clientHeader, messageBody := none }
                    bodyHash := bodyHash
                    headerHash := headerHash
                    headerSignature := headerSignature
                    senderDeviceRevokedAt := validity.senderDeviceRevokedAt })
              else
                -- dispatch on the body version
                match body with
                | some (.v1 bv) =>
                  .ok (.ok
                    { messagePlaintext :=
                        { clientHeader := clientHeader, messageBody := bv.messageBody }
                      bodyHash := bodyHash
                      headerHash := headerHash
                      headerSignature := headerSignature
                      senderDeviceRevokedAt := validity.senderDeviceRevokedAt })
                | some (.unsupported v c) =>
                  .ok (.error (.permanent (some (.bodyVersionError v
                    (bodyUnsupported v (.unsupported v c))))))
                | none =>
                  -- unreachable: body is decoded whenever skipBodyVerification
                  -- is false
                  .ok (.error (.permanent (some .unmarshalFailure)))

/-- makeErrorMessage: export a permanent unboxing error as a stored error
record. Reads `msg.ServerHeader.Ctime` without a nil check. -/
def makeErrorMessage (msg : MessageBoxed) (err : UnboxingError) : GoResult MessageUnboxed :=
  match msg.serverHeader with
  | none => .panic "nil ServerHeader dereference"
  | some sh =>
    .ok (.error
      { errType := err.ExportType
        errMsg := err.errorMsg
        messageID := sh.messageID
        messageType := msg.clientHeader.messageType
        ctime := sh.ctime })

/-- The key-matching loop of UnboxMessage: the first key whose generation
equals the envelope generation (the loop breaks at the first hit). -/
def findMatchKey : List CryptKey → Nat → Option CryptKey
  | [], _ => none
  | k :: rest, gen => if k.keyGeneration = gen then some k else findMatchKey rest gen

/-- The prev-pointer loop of UnboxMessage: the error of the first prev
pointer the checker rejects. -/
def firstPrevErr (env : Env) (prev : List MessagePreviousPointer)
    (convID : ConversationID) : Option GoErr :=
  match prev with
  | [] => none
  | p :: rest =>
    match env.prevChecker p.id convID p.hash with
    | some e => some e
    | none => firstPrevErr env rest convID

/-- The sender info lookup of UnboxMessage: on failure of the full lookup
fall back to the username alone, and on failure of that fall back to empty
strings; the unbox itself never fails here. -/
def getSenderInfo (env : Env) (ch : MessageClientHeader) : String × String × String :=
  match env.lookupUsernameAndDevice ch.sender ch.senderDevice with
  | .ok r => r
  | .error _ =>
    match env.lookupUsername ch.sender with
    | .ok u => (u, "", "")
    | .error _ => ("", "", "")

/-- UnboxMessage: resolve the key by generation, unbox with it, resolve
sender info, run the replay and prev-pointer checks, and assemble the
valid record. Permanent errors from unboxMessageWithKey become stored
error records; transient ones are returned as errors.

Two behaviours of the source are reproduced exactly:

* once unboxMessageWithKey has failed, the debug log line reads
  `boxed.ServerHeader.MessageID` without a nil check, so a nil server
  header panics there instead of producing the error record built a line
  later;
* the replay variable of the body-hash check, nil by the time the header
  hash and prev-pointer checks run, is what NewPermanentUnboxingError
  wraps on those two paths, so the checker error is dropped and the
  returned permanent error wraps nothing. -/
def UnboxMessage (env : Env) (boxed : MessageBoxed) (convID : ConversationID)
    (finalizeInfo : Option ConversationFinalizeInfo) :
    GoResult (Except UnboxingError MessageUnboxed) :=
  let tlfName := TLFNameExpanded boxed.clientHeader finalizeInfo
  let tlfPublic := boxed.clientHeader.tlfPublic
  match env.keyFinderFind tlfName tlfPublic with
  | .error err => .ok (.error (.transient err))
  | .ok keys =>
    match findMatchKey keys.cryptKeys boxed.keyGeneration with
    | none => .ok (.error (.transient (.noKeyForGeneration boxed.keyGeneration)))
    | some matchKey =>
      match unboxMessageWithKey env boxed matchKey with
      | .panic p => .panic p
      | .ok (.error ierr) =>
        match boxed.serverHeader with
        | none => .panic "nil ServerHeader dereference"
        | some _ =>
          if ierr.IsPermanent then
            match makeErrorMessage boxed ierr with
            | .panic p => .panic p
            | .ok record => .ok (.ok record)
          else .ok (.error ierr)
      | .ok (.ok umwkr) =>
        let pt := umwkr.messagePlaintext
        let info := getSenderInfo env pt.clientHeader
        match boxed.serverHeader with
        | none => .panic "nil ServerHeader dereference"
        | some sh =>
          match env.bodyHashChecker umwkr.bodyHash sh.messageID convID with
          | some replayErr => .ok (.error (.permanent (some replayErr)))
          | none =>
            -- from here on the replay variable holds nil, yet it is what
            -- the two checks below wrap into their permanent errors
            match env.prevChecker sh.messageID convID umwkr.headerHash with
            | some _ => .ok (.error (.permanent none))
            | none =>
              match firstPrevErr env pt.clientHeader.prev convID with
              | some _ => .ok (.error (.permanent none))
              | none =>
                .ok (.ok (.valid
                  { clientHeader := pt.clientHeader
                    serverHeader := sh
                    messageBody := pt.messageBody
                    senderUsername := info.1
                    senderDeviceName := info.2.1
                    senderDeviceType := info.2.2
                    bodyHash := umwkr.bodyHash
                    headerHash := umwkr.headerHash
                    headerSignature := umwkr.headerSignature
                    senderDeviceRevokedAt := umwkr.senderDeviceRevokedAt }))

/-- boxMessageWithKeys: encrypt and sign a plaintext under a crypt key.
The two RNG nonces are explicit arguments; marshalling and signing never
fail in the model, so the error returns of the source are dead here. -/
def boxMessageWithKeys (msg : MessagePlaintext) (key : CryptKey)
    (signingKeyPair : NaclSigningKeyPair) (nonceBody nonceHeader : Bytes) : MessageBoxed :=
  let body : BodyPlaintextV1 := { messageBody := msg.messageBody }
  let plaintextBody := BodyPlaintext.v1 body
  let encryptedBody := sealBox (.mBody plaintextBody) key nonceBody
  let bodyHash := hashV1 encryptedBody.e
  -- create the v1 header, adding the hash; the signature field is nil here
  let header : HeaderPlaintextV1 :=
    { conv := msg.clientHeader.conv
      tlfName := msg.clientHeader.tlfName
      tlfPublic := msg.clientHeader.tlfPublic
      messageType := msg.clientHeader.messageType
      prev := msg.clientHeader.prev
      sender := msg.clientHeader.sender
      senderDevice := msg.clientHeader.senderDevice
      bodyHash := bodyHash
      outboxInfo := msg.clientHeader.outboxInfo
      outboxID := msg.clientHeader.outboxID
      headerSignature := none }
  -- sign the header and insert the signature
  let sig := signMarshal header signingKeyPair SignaturePrefixChat
  let signedHeader := { header with headerSignature := some sig }
  let plaintextHeader := HeaderPlaintext.v1 signedHeader
  let encryptedHeader := sealBox (.mHeader plaintextHeader) key nonceHeader
  { serverHeader := none
    clientHeader := msg.clientHeader
    bodyCiphertext := encryptedBody
    headerCiphertext := encryptedHeader
    keyGeneration := key.keyGeneration }

/-- The recent-key loop of BoxMessage, under the Go (pre-1.22) range
semantics the source was written against: `key` is a single variable that
every iteration assigns, and `recentKey = &key` stores its address, so
once any iteration fires the condition, dereferencing `recentKey` after
the loop yields the final value of `key` — the last element of the list,
not the element that fired the condition. The condition itself fires on
the first iteration (recentKey is nil) and never again, because after
that `recentKey.KeyGeneration` reads through the alias and compares the
current element with itself. -/
def recentKeyOfList (keys : List CryptKey) : Option CryptKey :=
  let recentSet := keys.foldl
    (fun recentSet key =>
      if recentSet = false ∨ key.keyGeneration > key.keyGeneration then true else recentSet)
    false
  if recentSet then keys.getLast? else none

/-- BoxMessage: seal a plaintext into an envelope using the most recent
key for the TLF (see `recentKeyOfList` for what the source actually
selects). -/
def BoxMessage (env : Env) (msg : MessagePlaintext) (signingKeyPair : NaclSigningKeyPair)
    (nonceBody nonceHeader : Bytes) : Except BoxErr MessageBoxed :=
  let tlfName := msg.clientHeader.tlfName
  if tlfName.length = 0 then
    .error (.boxingError "blank TLF name given" true)
  else
    match env.keyFinderFind tlfName msg.clientHeader.tlfPublic with
    | .error err => .error (.boxingCryptKeysError err)
    | .ok cres =>
      let msg1 : MessagePlaintext :=
        { msg with clientHeader := { msg.clientHeader with tlfName := cres.canonicalName } }
      let recentKey : Option CryptKey :=
        if msg1.clientHeader.tlfPublic then some publicCryptKey
        else recentKeyOfList cres.cryptKeys
      match latestMerkleRoot env with
      | .error err => .error (.boxingError err.errorString false)
      | .ok merkleRoot =>
        let msg2 : MessagePlaintext :=
          { msg1 with clientHeader := { msg1.clientHeader with merkleRoot := merkleRoot } }
        if msg2.clientHeader.tlfName.length = 0 then
          .error (.boxingError
            ("blank TLF name received: original: " ++ tlfName ++ " canonical: "
              ++ msg2.clientHeader.tlfName) true)
        else
          match recentKey with
          | none =>
            .error (.boxingError
              ("no key found for tlf \"" ++ tlfName ++ "\" (public: "
                ++ (if msg2.clientHeader.tlfPublic then "true" else "false") ++ ")") false)
          | some k => .ok (boxMessageWithKeys msg2 k signingKeyPair nonceBody nonceHeader)

/-! Projections used to state results of a run without spelling out whole
records. -/

/-- Whether an unbox run produced a valid message. -/
def unboxIsValid : GoResult (Except UnboxingError MessageUnboxed) → Bool
  | .ok (.ok (.valid _)) => true
  | _ => false

/-- The client header of a valid unbox result. -/
def unboxValidHeader : GoResult (Except UnboxingError MessageUnboxed) →
    Option MessageClientHeader
  | .ok (.ok (.valid v)) => some v.clientHeader
  | _ => none

/-- The message body of a valid unbox result. -/
def unboxValidBody : GoResult (Except UnboxingError MessageUnboxed) → Option MessageBody
  | .ok (.ok (.valid v)) => some v.messageBody
  | _ => none

/-- The key generation recorded in a boxing result. -/
def boxedKeyGeneration : Except BoxErr MessageBoxed → Option Nat
  | .ok b => some b.keyGeneration
  | .error _ => none

/-- The symmetric key a boxing result sealed its body with. -/
def boxedSealingKey : Except BoxErr MessageBoxed → Option CryptKey
  | .ok b =>
    match b.bodyCiphertext.e with
    | .sealedBox _ k _ => some k
    | _ => none
  | .error _ => none

/-! Concrete scenario used by the evaluated theorems: a two-member private
TLF whose canonical name differs from the typed one by case, one crypt key
of generation 3, a healthy merkle client and user loader, and no replay or
prev-pointer conflicts. -/

/-- Crypt key of generation 3 for the concrete scenario. -/
def keyA : CryptKey := ⟨3, List.replicate 32 1⟩

/-- Crypt key of generation 2. -/
def keyGen2 : CryptKey := ⟨2, List.replicate 32 2⟩

/-- Crypt key of generation 1. -/
def keyGen1 : CryptKey := ⟨1, List.replicate 32 4⟩

/-- A healthy environment. -/
def envA : Env :=
  { keyFinderFind := fun _ _ => .ok ⟨"alice,bob", [keyA]⟩
    merkleClientAvailable := true
    lastRootInfo := .ok (some ⟨9, [7]⟩)
    hasUPAKLoader := true
    lookupUsernameAndDevice := fun _ _ => .ok ("alice", "laptop", "desktop")
    lookupUsername := fun _ => .ok "alice"
    checkKIDForUID := fun _ _ => .ok (true, none, false)
    bodyHashChecker := fun _ _ _ => none
    prevChecker := fun _ _ _ => none }

/-- A client header typed with non-canonical capitalisation, one prev
pointer, and no merkle root. -/
def chA : MessageClientHeader :=
  ⟨11, "Alice,Bob", false, 1, [⟨1, [9, 9]⟩], 42, 5, none, none, none⟩

/-- A plaintext carrying an opaque text body. -/
def ptA : MessagePlaintext := ⟨chA, some 77⟩

/-- The signing keypair of the sending device. -/
def kpA : NaclSigningKeyPair := ⟨[3, 3], 8⟩

/-- Nonce drawn for the body. -/
def nonceA : Bytes := List.replicate 24 0

/-- Nonce drawn for the header. -/
def nonceB : Bytes := List.replicate 24 1

/-- Server header assigned on the happy path. -/
def shA : MessageServerHeader := ⟨2, 0, 1000⟩

/-- The happy-path envelope: ptA boxed by envA and given a server header. -/
def boxedA : MessageBoxed :=
  match BoxMessage envA ptA kpA nonceA nonceB with
  | .ok b => { b with serverHeader := some shA }
  | .error _ =>
    { serverHeader := none, clientHeader := chA, headerCiphertext := ⟨1, .raw [], []⟩,
      bodyCiphertext := ⟨1, .raw [], []⟩, keyGeneration := 0 }

/-- A plaintext that already carries a merkle root in its client header. -/
def ptMerkle : MessagePlaintext := ⟨{ chA with merkleRoot := some ⟨1, [2]⟩ }, some 77⟩

/-- ptMerkle boxed and given a server header. -/
def boxedMerkle : MessageBoxed :=
  match BoxMessage envA ptMerkle kpA nonceA nonceB with
  | .ok b => { b with serverHeader := some shA }
  | .error _ =>
    { serverHeader := none, clientHeader := chA, headerCiphertext := ⟨1, .raw [], []⟩,
      bodyCiphertext := ⟨1, .raw [], []⟩, keyGeneration := 0 }

/-- Environment whose key list holds generation 2 before generation 1, so
the highest generation is not the last element. -/
def envTwoKeys : Env :=
  { envA with keyFinderFind := fun _ _ => .ok ⟨"alice,bob", [keyGen2, keyGen1]⟩ }

/-- Environment whose prev checker reports a mismatch for every record. -/
def envPrevFail : Env :=
  { envA with prevChecker := fun _ _ _ => some (.external "prev pointer hash mismatch") }

/-- Environment whose prev checker reports a mismatch only for message id 1
(the prev pointer carried by chA), not for the message itself. -/
def envPrevPtrFail : Env :=
  { envA with prevChecker := fun m _ _ =>
      if m = 1 then some (.external "prev pointer hash mismatch") else none }

/-- Environment whose merkle client fails. -/
def envMerkleFail : Env := { envA with lastRootInfo := .error (.external "merkle down") }

/-- Environment whose merkle client returns no root without error. -/
def envMerkleNone : Env := { envA with lastRootInfo := .ok none }

/-- Environment reporting the signing key with the given revocation state. -/
def envRevokedAt (r : Option Int) (deleted : Bool) : Env :=
  { envA with checkKIDForUID := fun _ _ => .ok (true, r, deleted) }

/-- Environment whose user loader backend fails. -/
def envKIDErr : Env :=
  { envA with checkKIDForUID := fun _ _ => .error (.external "backend down") }

/-- Environment returning a key list for a public conversation; the listed
key has generation 7 so any use of it would be visible. -/
def envPub : Env :=
  { envA with keyFinderFind := fun _ _ => .ok ⟨"alice,bob", [⟨7, List.replicate 32 5⟩]⟩ }

/-- A public variant of the plaintext. -/
def ptPub : MessagePlaintext := ⟨{ chA with tlfPublic := true }, some 77⟩

/-- The happy envelope with its body ciphertext emptied and no
supersession. -/
def boxedEmpty0 : MessageBoxed :=
  { boxedA with bodyCiphertext := ⟨1, .raw [], []⟩, serverHeader := some ⟨2, 0, 1000⟩ }

/-- The happy envelope with its body ciphertext emptied and superseded by
message 5. -/
def boxedEmpty5 : MessageBoxed :=
  { boxedA with bodyCiphertext := ⟨1, .raw [], []⟩, serverHeader := some ⟨2, 5, 1000⟩ }

/-- The happy envelope, body present, marked superseded by message 5: it
violates the claimed biconditional. -/
def boxedFull5 : MessageBoxed := { boxedA with serverHeader := some ⟨2, 5, 1000⟩ }

/-- The happy envelope stripped of its server header. -/
def boxedNilSH : MessageBoxed := { boxedA with serverHeader := none }

/-- A junk envelope without a server header (used independently of
boxedA): generation 3 so the key lookup succeeds. -/
def msgNilSH : MessageBoxed :=
  ⟨none, chA, ⟨1, .raw [1], [0]⟩, ⟨1, .raw [1], [0]⟩, 3⟩

/-- A V1 header plaintext whose signature field is nil. -/
def hpNoSig : HeaderPlaintextV1 :=
  ⟨11, "alice,bob", false, 1, [], 42, 5, [0], none, none, none⟩

/-- An envelope whose sealed header decodes to a V1 header plaintext with
a nil signature; the body is empty and superseded so body checks are
skipped. -/
def msgNoSigA : MessageBoxed :=
  { serverHeader := some ⟨2, 5, 1000⟩, clientHeader := chA,
    headerCiphertext := sealBox (.mHeader (.v1 hpNoSig)) keyA nonceB,
    bodyCiphertext := ⟨1, .raw [], []⟩, keyGeneration := 3 }

/-- Environment whose key finder fails (for instance: rekey needed). -/
def envFindFail : Env :=
  { envA with keyFinderFind := fun _ _ => .error (.external "needs rekey") }

/-- The V1 header with its detached signature inserted, as
boxMessageWithKeys builds it before sealing. -/
def signedHeader (hp : HeaderPlaintextV1) (kp : NaclSigningKeyPair) : HeaderPlaintextV1 :=
  { hp with headerSignature := some (signV2 (.mHeaderV1 hp) kp SignaturePrefixChat) }

/-- An empty-body superseded envelope whose sealed header is hpNoSig
signed by kpA; the stored body hash [0] is arbitrary. -/
def msgEmpty5W : MessageBoxed :=
  { serverHeader := some ⟨2, 5, 1000⟩, clientHeader := chA,
    headerCiphertext := sealBox (.mHeader (.v1 (signedHeader hpNoSig kpA))) keyA nonceB,
    bodyCiphertext := ⟨1, .raw [], []⟩, keyGeneration := 3 }

/-- The happy envelope with its header ciphertext re-sealed under a
different key, so opening the header fails permanently. -/
def boxedBadHeaderCT : MessageBoxed :=
  { boxedA with headerCiphertext := sealBox (.mHeader (.v1 hpNoSig)) ⟨3, List.replicate 32 9⟩ nonceB }

/-! Helper lemmas shared by the claim theorems. -/

/-- The recent-key loop marks a key as soon as the list is non-empty and
then keeps reading through the alias, so its result is the last element. -/
theorem recentKeyOfList_eq_getLast (keys : List CryptKey) :
    recentKeyOfList keys = keys.getLast? := by
  cases keys with
  | nil => rfl
  | cons k rest =>
    unfold recentKeyOfList
    have hfold : ∀ (l : List CryptKey),
        l.foldl (fun recentSet key =>
          if recentSet = false ∨ key.keyGeneration > key.keyGeneration then true
          else recentSet) true = true := by
      intro l
      induction l with
      | nil => rfl
      | cons x xs ih =>
        rw [List.foldl_cons]
        rw [show (if true = false ∨ x.keyGeneration > x.keyGeneration then true
          else true) = true from by simp]
        exact ih
    rw [List.foldl_cons]
    rw [show (if false = false ∨ k.keyGeneration > k.keyGeneration then true
      else false) = true from by simp]
    simp only [hfold rest]
    rfl

/-- Opening a sealed box with the sealing key and a well-formed nonce
recovers the plaintext. -/
theorem openBox_sealBox (p : PackedData) (key : CryptKey) (nonce : Bytes)
    (h : nonce.length = 24) : openBox (sealBox p key nonce) key = .ok p := by
  simp [openBox, sealBox, NaclDHNonceSize, h]

/-- A signature verifies against the payload and prefix it was produced
over. -/
theorem verify_signV2 (p : PackedData) (kp : NaclSigningKeyPair) (pfx : String) :
    verify p (signV2 p kp pfx) pfx = true := by
  simp [verify, signV2]

/-- The millisecond round trip through a clock value is exact. -/
theorem gregorToTime_keybase1KeybaseTimeToTime (u : Int) :
    gregorToTime (keybase1KeybaseTimeToTime u) = u := by
  unfold gregorToTime keybase1KeybaseTimeToTime
  have h1 : ((u % 1000) * 1000000) / 1000000 = u % 1000 :=
    Int.mul_ediv_cancel _ (by norm_num)
  simp only [h1]
  omega

/-- C2: the claim fails on the code. With the resolver returning
generations [2, 1], BoxMessage reports key generation 1 — the last list
element — and seals with the generation-1 key, although the highest
generation present is 2. The recent-key loop stores the address of its
range variable, so the chosen key is the final value of that variable. -/
theorem C2_boxes_with_last_key_not_highest :
    envTwoKeys.keyFinderFind "Alice,Bob" false = .ok ⟨"alice,bob", [keyGen2, keyGen1]⟩ ∧
    keyGen2.keyGeneration = 2 ∧
    boxedKeyGeneration (BoxMessage envTwoKeys ptA kpA nonceA nonceB) = some 1 ∧
    boxedSealingKey (BoxMessage envTwoKeys ptA kpA nonceA nonceB) = some keyGen1 ∧
    (1 : Nat) ≠ 2 := by
  refine ⟨rfl, rfl, rfl, rfl, by decide⟩

/-- C3: the claim fails on the code. When the prev checker rejects the
unboxed message (its own header hash, first run; or one of its prev
pointers, second run), UnboxMessage returns a permanent error built from
the replay variable of the earlier body-hash check, which is nil at that
point — the checker error is dropped, so the returned error cannot
reference it. The third conjunct shows the checker did produce an error. -/
theorem C3_prev_error_wraps_nil :
    UnboxMessage envPrevFail boxedA 1 none = .ok (.error (.permanent none)) ∧
    UnboxMessage envPrevPtrFail boxedA 1 none = .ok (.error (.permanent none)) ∧
    envPrevPtrFail.prevChecker 1 1 [9, 9] = some (.external "prev pointer hash mismatch") := by
  refine ⟨rfl, rfl, rfl⟩

/-- C4: the claim fails on the code. A merkle fetch failure makes
BoxMessage return a BoxingError whose permanent flag is false — a
transient error, not the permanent one the claim states (the message is
carried, as claimed). -/
theorem C4_merkle_failure_is_transient :
    BoxMessage envMerkleFail ptA kpA nonceA nonceB =
      .error (.boxingError "merkle down" false) ∧
    (∀ s, BoxMessage envMerkleFail ptA kpA nonceA nonceB ≠ .error (.boxingError s true)) := by
  refine ⟨rfl, ?_⟩
  intro s h
  rw [show BoxMessage envMerkleFail ptA kpA nonceA nonceB =
    .error (.boxingError "merkle down" false) from rfl] at h
  simp at h

/-- C5: the claim fails on the code. An envelope whose body ciphertext is
non-empty while its server header says supersededBy = 5 violates the
claimed biconditional, yet it unboxes to a valid record: only the
direction "empty body requires supersession" is checked. -/
theorem C5_biconditional_not_enforced :
    unboxIsValid (UnboxMessage envA boxedFull5 1 none) = true ∧
    boxedFull5.bodyCiphertext.e.isEmptyBytes = false ∧
    (match boxedFull5.serverHeader with
     | some sh => sh.supersededBy
     | none => 0) = 5 := by
  refine ⟨rfl, rfl, rfl⟩

/-- C6: the claim fails on the code at revocation time T = 0. The
resolver reports the key revoked at time 0, before the server ctime 1000,
but ValidSenderKey returns a permanent zero-clock error rather than any
NoKey error. -/
theorem C6_zero_revocation_is_not_nokey :
    ValidSenderKey (envRevokedAt (some 0) false) 42 [3, 3] 1000 =
      .error (.permanent (some .zeroClockOnExpiredKey)) ∧
    (∀ s, GoErr.zeroClockOnExpiredKey ≠ GoErr.noKey s) := by
  refine ⟨rfl, ?_⟩
  intro s h
  simp at h

/-- C9: the code violates the claim. For an envelope with a nil server
header, unboxMessageWithKey classifies the failure permanent as intended,
but UnboxMessage then reads ServerHeader.MessageID in its debug log line
and ServerHeader.Ctime when building the record, so the run panics on the
nil pointer instead of terminating with the error record. -/
theorem C9_nil_server_header_panics :
    unboxMessageWithKey envA msgNilSH keyA =
      .ok (.error (.permanent (some .nilServerHeader))) ∧
    UnboxMessage envA msgNilSH 1 none = .panic "nil ServerHeader dereference" := by
  refine ⟨rfl, rfl⟩

/-- C10: the code violates the claim. An envelope whose decrypted V1
header plaintext carries a nil headerSignature reaches the signature
check, which dereferences the nil pointer when re-encoding and verifying:
the unbox panics instead of failing cleanly. -/
theorem C10_nil_header_signature_panics :
    unboxMessageWithKey envA msgNoSigA keyA = .panic "nil HeaderSignature dereference" ∧
    UnboxMessage envA msgNoSigA 1 none = .panic "nil HeaderSignature dereference" := by
  refine ⟨rfl, rfl⟩

/-- C8: the claim fails on the code for envelopes without a server
header: the permanent error unboxMessageWithKey reports is never turned
into a stored record because the debug log line dereferences the nil
server header first and panics. -/
theorem C8_permanent_error_not_stored_on_nil_header :
    unboxMessageWithKey envA boxedNilSH keyA =
      .ok (.error (.permanent (some .nilServerHeader))) ∧
    UnboxMessage envA boxedNilSH 1 none = .panic "nil ServerHeader dereference" := by
  refine ⟨rfl, rfl⟩

/-- C1: the claim fails on the code. Boxing a plaintext whose client
header carries a merkle root and unboxing the result yields a valid
record, but its client header is not the canonicalised original: the
merkle root is absent, because header plaintext V1 does not carry it. -/
theorem C1_roundtrip_drops_merkle_root :
    unboxValidHeader (UnboxMessage envA boxedMerkle 1 none) =
      some { chA with tlfName := "alice,bob" } ∧
    some { chA with tlfName := "alice,bob" } ≠
      some { ptMerkle.clientHeader with tlfName := "alice,bob" } := by
  refine ⟨rfl, by decide⟩

/-- C7: boxing a public plaintext seals both ciphertexts under the
all-zero sentinel key of generation 1, whatever key list the resolver
returned. -/
theorem C7_public_sentinel
    (env : Env) (msg : MessagePlaintext) (kp : NaclSigningKeyPair) (n1 n2 : Bytes)
    (cres : FindRes) (root : Option MerkleRoot)
    (hpub : msg.clientHeader.tlfPublic = true)
    (hname : ¬ msg.clientHeader.tlfName.length = 0)
    (hfind : env.keyFinderFind msg.clientHeader.tlfName true = .ok cres)
    (hcanon : ¬ cres.canonicalName.length = 0)
    (hroot : latestMerkleRoot env = .ok root) :
    ∃ boxed, BoxMessage env msg kp n1 n2 = .ok boxed ∧
      boxed.keyGeneration = 1 ∧
      boxed.bodyCiphertext.e =
        .sealedBox (.mBody (.v1 ⟨msg.messageBody⟩)) publicCryptKey n1 ∧
      ∃ hp, boxed.headerCiphertext.e = .sealedBox (.mHeader (.v1 hp)) publicCryptKey n2 := by
  unfold BoxMessage
  simp only [hpub, if_neg hname, hfind, hroot, if_pos rfl]
  simp only [if_neg hcanon]
  refine ⟨_, rfl, rfl, rfl, ⟨_, rfl⟩⟩

/-- Witness for C7 at a concrete public plaintext: the resolver returns a
generation-7 key, yet the envelope is sealed under the sentinel. -/
theorem C7_public_sentinel_witness :
    ∃ boxed, BoxMessage envPub ptPub kpA nonceA nonceB = .ok boxed ∧
      boxed.keyGeneration = 1 ∧
      boxed.bodyCiphertext.e =
        .sealedBox (.mBody (.v1 ⟨ptPub.messageBody⟩)) publicCryptKey nonceA ∧
      ∃ hp, boxed.headerCiphertext.e = .sealedBox (.mHeader (.v1 hp)) publicCryptKey nonceB :=
  C7_public_sentinel envPub ptPub kpA nonceA nonceB ⟨"alice,bob", [⟨7, List.replicate 32 5⟩]⟩
    (some ⟨9, [7]⟩) rfl (by decide) rfl (by decide) rfl

/-- C4 as amended: a merkle fetch failure during boxing yields a
transient BoxingError carrying the message of the root error, and a null
root returned without error is accepted, the envelope header carrying no
root. -/
theorem C4_merkle_amended
    (env1 env2 : Env) (msg : MessagePlaintext) (kp : NaclSigningKeyPair) (n1 n2 : Bytes)
    (e : GoErr) (cres1 cres2 : FindRes) (K : CryptKey)
    (hname : ¬ msg.clientHeader.tlfName.length = 0)
    (hfind1 : env1.keyFinderFind msg.clientHeader.tlfName msg.clientHeader.tlfPublic = .ok cres1)
    (hmerkle1 : latestMerkleRoot env1 = .error e)
    (hpriv : msg.clientHeader.tlfPublic = false)
    (hfind2 : env2.keyFinderFind msg.clientHeader.tlfName false = .ok cres2)
    (hmerkle2 : latestMerkleRoot env2 = .ok none)
    (hcanon2 : ¬ cres2.canonicalName.length = 0)
    (hkey2 : cres2.cryptKeys.getLast? = some K) :
    BoxMessage env1 msg kp n1 n2 = .error (.boxingError e.errorString false) ∧
    ∃ boxed, BoxMessage env2 msg kp n1 n2 = .ok boxed ∧
      boxed.clientHeader.merkleRoot = none := by
  constructor
  · unfold BoxMessage
    simp only [if_neg hname, hfind1, hmerkle1]
  · unfold BoxMessage
    simp only [hpriv, if_neg hname, hfind2, hmerkle2, recentKeyOfList_eq_getLast, hkey2]
    simp only [if_neg hcanon2, Bool.false_eq_true, if_false]
    refine ⟨_, rfl, rfl⟩

/-- Witness for C4 at concrete environments: a failing merkle client and
one returning no root. -/
theorem C4_merkle_amended_witness :
    BoxMessage envMerkleFail ptA kpA nonceA nonceB =
      .error (.boxingError (GoErr.external "merkle down").errorString false) ∧
    ∃ boxed, BoxMessage envMerkleNone ptA kpA nonceA nonceB = .ok boxed ∧
      boxed.clientHeader.merkleRoot = none :=
  C4_merkle_amended envMerkleFail envMerkleNone ptA kpA nonceA nonceB
    (.external "merkle down") ⟨"alice,bob", [keyA]⟩ ⟨"alice,bob", [keyA]⟩ keyA
    (by decide) rfl rfl rfl rfl rfl (by decide) rfl

/-- C5 as amended: only the forward direction of the invariant is
enforced by unboxMessageWithKey. An empty body with supersededBy = 0 is
rejected permanently; an empty body on a superseded message unboxes
successfully with an empty message body, the stored body hash never being
compared (hp.bodyHash below is arbitrary). The reverse direction is not
checked (see the counterexample theorem). -/
theorem C5_empty_body_amended (env : Env) (key : CryptKey) :
    (∀ (msg : MessageBoxed) (sh : MessageServerHeader),
      msg.serverHeader = some sh →
      msg.bodyCiphertext.e.isEmptyBytes = true →
      sh.supersededBy = 0 →
      unboxMessageWithKey env msg key =
        .ok (.error (.permanent (some .emptyBodyNotSuperseded)))) ∧
    (∀ (msg : MessageBoxed) (sh : MessageServerHeader) (hp : HeaderPlaintextV1)
        (kp : NaclSigningKeyPair) (nonce : Bytes),
      msg.serverHeader = some sh →
      msg.bodyCiphertext.e.isEmptyBytes = true →
      ¬ sh.supersededBy = 0 →
      hp.headerSignature = none →
      msg.headerCiphertext = sealBox (.mHeader (.v1 (signedHeader hp kp))) key nonce →
      nonce.length = 24 →
      env.hasUPAKLoader = true →
      env.checkKIDForUID hp.sender kp.kid = .ok (true, none, false) →
      unboxMessageWithKey env msg key = .ok (.ok
        { messagePlaintext := { clientHeader := clientHeaderOfV1 hp, messageBody := none }
          bodyHash := hp.bodyHash
          headerHash := hashV1 msg.headerCiphertext.e
          headerSignature := (signedHeader hp kp).headerSignature
          senderDeviceRevokedAt := none })) := by
  constructor
  · intro msg sh hserver hempty hzero
    unfold unboxMessageWithKey
    simp only [hserver, hempty, hzero]
    simp
  · intro msg sh hp kp nonce hserver hempty hnz hsig0 hct hn hupak hkid
    have hcopy : ({ hp with headerSignature := none } : HeaderPlaintextV1) = hp := by
      cases hp
      simp_all
    unfold unboxMessageWithKey
    rw [hct]
    simp only [hserver, hempty, if_neg hnz]
    simp only [openBox_sealBox _ _ _ hn]
    simp only [unmarshalHeader]
    simp only [verifyMessage, verifyMessageHeaderV1, signedHeader]
    simp only [hcopy, verify_signV2]
    unfold ValidSenderKey
    simp only [hupak, signV2, hkid]
    simp only [hserver]
    simp [clientHeaderOfV1]

/-- Witness for C5 at concrete envelopes: an empty body without
supersession is rejected, an empty superseded body unboxes to an empty
message. -/
theorem C5_empty_body_amended_witness :
    unboxMessageWithKey envA boxedEmpty0 keyA =
      .ok (.error (.permanent (some .emptyBodyNotSuperseded))) ∧
    unboxMessageWithKey envA msgEmpty5W keyA = .ok (.ok
      { messagePlaintext := { clientHeader := clientHeaderOfV1 hpNoSig, messageBody := none }
        bodyHash := hpNoSig.bodyHash
        headerHash := hashV1 msgEmpty5W.headerCiphertext.e
        headerSignature := (signedHeader hpNoSig kpA).headerSignature
        senderDeviceRevokedAt := none }) :=
  ⟨(C5_empty_body_amended envA keyA).1 boxedEmpty0 ⟨2, 0, 1000⟩ rfl rfl rfl,
   (C5_empty_body_amended envA keyA).2 msgEmpty5W ⟨2, 5, 1000⟩ hpNoSig kpA nonceB
     rfl rfl (by decide) rfl rfl rfl rfl rfl⟩

/-- C6 as amended: sender-key validity at the server ctime. A backend
error is transient; a deleted user counts as revoked since the epoch and
stays valid; a revocation at T after ctime leaves the key valid with the
revocation time reported; a nonzero T not after ctime makes it invalid,
which the V1 header verification turns into a permanent NoKey error; a
revocation time of exactly zero is a permanent zero-clock error instead
of NoKey. -/
theorem C6_sender_key_amended (env : Env) (s : UID) (k : Bytes) (ctime : Int)
    (hupak : env.hasUPAKLoader = true) :
    (∀ e, env.checkKIDForUID s k = .error e →
      ValidSenderKey env s k ctime = .error (.transient e)) ∧
    (∀ rev, env.checkKIDForUID s k = .ok (true, rev, true) →
      ValidSenderKey env s k ctime = .ok (true, true, some 0)) ∧
    (∀ T, env.checkKIDForUID s k = .ok (true, some T, false) → ¬ T = 0 → ctime < T →
      ValidSenderKey env s k ctime = .ok (true, true, some T)) ∧
    (∀ T, env.checkKIDForUID s k = .ok (true, some T, false) → ¬ T = 0 → ¬ ctime < T →
      ValidSenderKey env s k ctime = .ok (true, false, some T)) ∧
    (env.checkKIDForUID s k = .ok (true, some 0, false) →
      ValidSenderKey env s k ctime = .error (.permanent (some .zeroClockOnExpiredKey))) ∧
    (∀ (header : HeaderPlaintextV1) (msg : MessageBoxed) (sh : MessageServerHeader)
        (hsig : SignatureInfo) (rev : Option Int),
      header.headerSignature = some hsig →
      msg.serverHeader = some sh →
      verify (.mHeaderV1 { header with headerSignature := none }) hsig SignaturePrefixChat = true →
      ValidSenderKey env header.sender hsig.k sh.ctime = .ok (true, false, rev) →
      verifyMessageHeaderV1 env header msg true =
        .ok (.error (.permanent (some (.noKey "key invalid for sender at message ctime"))))) ∧
    (∀ (header : HeaderPlaintextV1) (msg : MessageBoxed) (sh : MessageServerHeader)
        (hsig : SignatureInfo) (rev : Option Int),
      header.headerSignature = some hsig →
      msg.serverHeader = some sh →
      verify (.mHeaderV1 { header with headerSignature := none }) hsig SignaturePrefixChat = true →
      ValidSenderKey env header.sender hsig.k sh.ctime = .ok (true, true, rev) →
      verifyMessageHeaderV1 env header msg true = .ok (.ok { senderDeviceRevokedAt := rev })) := by
  refine ⟨?_, ?_, ?_, ?_, ?_, ?_, ?_⟩
  · intro e he
    unfold ValidSenderKey
    simp [hupak, he]
  · intro rev hrev
    unfold ValidSenderKey
    simp [hupak, hrev]
  · intro T hT hT0 hlt
    unfold ValidSenderKey
    simp only [hupak, hT]
    simp [hT0, timeAfter, gregorToTime_keybase1KeybaseTimeToTime, hlt]
  · intro T hT hT0 hge
    unfold ValidSenderKey
    simp only [hupak, hT]
    simp [hT0, timeAfter, gregorToTime_keybase1KeybaseTimeToTime, hge]
  · intro h0
    unfold ValidSenderKey
    simp [hupak, h0]
  · intro header msg sh hsig rev hs hserver hv hvalid
    unfold verifyMessageHeaderV1
    simp only [hs, hserver, hv, hvalid]
    simp
  · intro header msg sh hsig rev hs hserver hv hvalid
    unfold verifyMessageHeaderV1
    simp only [hs, hserver, hv, hvalid]
    simp

/-- Witness for C6 at concrete revocation states (ctime 1000): revoked at
2000 stays valid with the time reported, revoked at 500 is invalid,
a deleted user is valid with revocation time 0, and a backend failure is
transient. -/
theorem C6_sender_key_amended_witness :
    ValidSenderKey (envRevokedAt (some 2000) false) 42 [3, 3] 1000 =
      .ok (true, true, some 2000) ∧
    ValidSenderKey (envRevokedAt (some 500) false) 42 [3, 3] 1000 =
      .ok (true, false, some 500) ∧
    ValidSenderKey (envRevokedAt none true) 42 [3, 3] 1000 = .ok (true, true, some 0) ∧
    ValidSenderKey envKIDErr 42 [3, 3] 1000 = .error (.transient (.external "backend down")) :=
  ⟨(C6_sender_key_amended (envRevokedAt (some 2000) false) 42 [3, 3] 1000 rfl).2.2.1
      2000 rfl (by decide) (by decide),
   (C6_sender_key_amended (envRevokedAt (some 500) false) 42 [3, 3] 1000 rfl).2.2.2.1
      500 rfl (by decide) (by decide),
   (C6_sender_key_amended (envRevokedAt none true) 42 [3, 3] 1000 rfl).2.1 none rfl,
   (C6_sender_key_amended envKIDErr 42 [3, 3] 1000 rfl).1 (.external "backend down") rfl⟩

/-- C8 as amended, for envelopes whose server header is present (see the
counterexample theorem for the nil case): key-resolution failures and a
missing generation are transient errors returned as errors, permanent
errors from unboxMessageWithKey are stored as error records and returned
without error, and transient ones are passed through. -/
theorem C8_error_discipline_amended (env : Env) (boxed : MessageBoxed)
    (convID : ConversationID) (fi : Option ConversationFinalizeInfo) :
    (∀ e, env.keyFinderFind (TLFNameExpanded boxed.clientHeader fi)
        boxed.clientHeader.tlfPublic = .error e →
      UnboxMessage env boxed convID fi = .ok (.error (.transient e))) ∧
    (∀ keys, env.keyFinderFind (TLFNameExpanded boxed.clientHeader fi)
        boxed.clientHeader.tlfPublic = .ok keys →
      findMatchKey keys.cryptKeys boxed.keyGeneration = none →
      UnboxMessage env boxed convID fi =
        .ok (.error (.transient (.noKeyForGeneration boxed.keyGeneration)))) ∧
    (∀ keys mk oe sh, env.keyFinderFind (TLFNameExpanded boxed.clientHeader fi)
        boxed.clientHeader.tlfPublic = .ok keys →
      findMatchKey keys.cryptKeys boxed.keyGeneration = some mk →
      unboxMessageWithKey env boxed mk = .ok (.error (.permanent oe)) →
      boxed.serverHeader = some sh →
      UnboxMessage env boxed convID fi = .ok (.ok (.error
        { errType := (UnboxingError.permanent oe).ExportType
          errMsg := (UnboxingError.permanent oe).errorMsg
          messageID := sh.messageID
          messageType := boxed.clientHeader.messageType
          ctime := sh.ctime }))) ∧
    (∀ keys mk e sh, env.keyFinderFind (TLFNameExpanded boxed.clientHeader fi)
        boxed.clientHeader.tlfPublic = .ok keys →
      findMatchKey keys.cryptKeys boxed.keyGeneration = some mk →
      unboxMessageWithKey env boxed mk = .ok (.error (.transient e)) →
      boxed.serverHeader = some sh →
      UnboxMessage env boxed convID fi = .ok (.error (.transient e))) := by
  refine ⟨?_, ?_, ?_, ?_⟩
  · intro e he
    unfold UnboxMessage
    simp [he]
  · intro keys hk hm
    unfold UnboxMessage
    simp [hk, hm]
  · intro keys mk oe sh hk hm hu hs
    unfold UnboxMessage
    simp only [hk, hm, hu, hs]
    simp [UnboxingError.IsPermanent, makeErrorMessage, hs]
  · intro keys mk e sh hk hm hu hs
    unfold UnboxMessage
    simp only [hk, hm, hu, hs]
    simp [UnboxingError.IsPermanent]

/-- Witness for C8 at concrete runs: a failing key finder, a key list
without the envelope generation, a decryption failure stored as a record,
and a backend failure passed through as transient. -/
theorem C8_error_discipline_amended_witness :
    UnboxMessage envFindFail boxedA 1 none =
      .ok (.error (.transient (.external "needs rekey"))) ∧
    UnboxMessage envTwoKeys boxedA 1 none =
      .ok (.error (.transient (.noKeyForGeneration 3))) ∧
    UnboxMessage envA boxedBadHeaderCT 1 none = .ok (.ok (.error
      { errType := (UnboxingError.permanent (some .decryptOpen)).ExportType
        errMsg := (UnboxingError.permanent (some .decryptOpen)).errorMsg
        messageID := shA.messageID
        messageType := boxedBadHeaderCT.clientHeader.messageType
        ctime := shA.ctime })) ∧
    UnboxMessage envKIDErr boxedA 1 none =
      .ok (.error (.transient (.external "backend down"))) :=
  ⟨(C8_error_discipline_amended envFindFail boxedA 1 none).1 (.external "needs rekey") rfl,
   (C8_error_discipline_amended envTwoKeys boxedA 1 none).2.1 ⟨"alice,bob", [keyGen2, keyGen1]⟩
     rfl rfl,
   (C8_error_discipline_amended envA boxedBadHeaderCT 1 none).2.2.1 ⟨"alice,bob", [keyA]⟩
     keyA (some .decryptOpen) shA rfl rfl rfl rfl,
   (C8_error_discipline_amended envKIDErr boxedA 1 none).2.2.2 ⟨"alice,bob", [keyA]⟩
     keyA (.external "backend down") shA rfl rfl rfl rfl⟩

/-- When the prev checker accepts everything, the prev-pointer loop finds
no error. -/
theorem firstPrevErr_none (env : Env) (convID : ConversationID)
    (h : ∀ m c hh, env.prevChecker m c hh = none) :
    ∀ l, firstPrevErr env l convID = none := by
  intro l
  induction l with
  | nil => rfl
  | cons p rest ih => simp [firstPrevErr, h, ih]

/-- C1 as amended: boxing a private plaintext and unboxing the resulting
envelope (under a resolver whose key list is the one key K, a healthy
sender key, and accepting replay checkers) yields a valid record whose
message body is the original and whose client header is the original
after TLF-name canonicalisation and with the merkle root field cleared —
header plaintext V1 does not carry the merkle root, so the attached root
does not survive the round trip (see the counterexample theorem). -/
theorem C1_roundtrip_amended
    (env : Env) (msg : MessagePlaintext) (kp : NaclSigningKeyPair) (n1 n2 : Bytes)
    (K : CryptKey) (canon : String) (sh : MessageServerHeader) (convID : ConversationID)
    (root : Option MerkleRoot)
    (hname : ¬ msg.clientHeader.tlfName.length = 0)
    (hpriv : msg.clientHeader.tlfPublic = false)
    (hfind : env.keyFinderFind msg.clientHeader.tlfName false = .ok ⟨canon, [K]⟩)
    (hcanon : ¬ canon.length = 0)
    (hfind2 : env.keyFinderFind canon false = .ok ⟨canon, [K]⟩)
    (hroot : latestMerkleRoot env = .ok root)
    (hn1 : n1.length = 24) (hn2 : n2.length = 24)
    (hupak : env.hasUPAKLoader = true)
    (hkid : env.checkKIDForUID msg.clientHeader.sender kp.kid = .ok (true, none, false))
    (hbodyck : ∀ hh m c, env.bodyHashChecker hh m c = none)
    (hprevck : ∀ m c hh, env.prevChecker m c hh = none) :
    ∃ boxed v, BoxMessage env msg kp n1 n2 = .ok boxed ∧
      UnboxMessage env { boxed with serverHeader := some sh } convID none =
        .ok (.ok (.valid v)) ∧
      v.messageBody = msg.messageBody ∧
      v.clientHeader = { msg.clientHeader with tlfName := canon, merkleRoot := none } := by
  have hbox : BoxMessage env msg kp n1 n2 = .ok (boxMessageWithKeys
      { msg with clientHeader :=
          { msg.clientHeader with tlfName := canon, merkleRoot := root } } K kp n1 n2) := by
    unfold BoxMessage
    simp only [hpriv, if_neg hname, hfind, hroot, recentKeyOfList_eq_getLast]
    simp [if_neg hcanon]
  have hunbox : ∃ v, UnboxMessage env
      { boxMessageWithKeys { msg with clientHeader :=
          { msg.clientHeader with tlfName := canon, merkleRoot := root } } K kp n1 n2
        with serverHeader := some sh } convID none = .ok (.ok (.valid v)) ∧
      v.messageBody = msg.messageBody ∧
      v.clientHeader = { msg.clientHeader with tlfName := canon, merkleRoot := none } := by
    unfold UnboxMessage
    simp [unboxMessageWithKey, ValidSenderKey,
      boxMessageWithKeys, TLFNameExpanded, hpriv, hfind2, findMatchKey,
      openBox, sealBox, NaclDHNonceSize, hn1, hn2, unmarshalBody, unmarshalHeader,
      PackedData.isEmptyBytes, verifyMessage, verifyMessageHeaderV1, signMarshal,
      signV2, verify, hupak, hkid, hbodyck, hprevck,
      firstPrevErr_none env convID hprevck, UnboxingError.IsPermanent, clientHeaderOfV1]
  obtain ⟨v, h1, h2, h3⟩ := hunbox
  exact ⟨_, v, hbox, h1, h2, h3⟩

/-- Witness for C1 at the concrete happy-path scenario. -/
theorem C1_roundtrip_amended_witness :
    ∃ boxed v, BoxMessage envA ptA kpA nonceA nonceB = .ok boxed ∧
      UnboxMessage envA { boxed with serverHeader := some shA } 1 none =
        .ok (.ok (.valid v)) ∧
      v.messageBody = ptA.messageBody ∧
      v.clientHeader = { ptA.clientHeader with tlfName := "alice,bob", merkleRoot := none } :=
  C1_roundtrip_amended envA ptA kpA nonceA nonceB keyA "alice,bob" shA 1 (some ⟨9, [7]⟩)
    (by decide) rfl rfl (by decide) rfl rfl rfl rfl rfl rfl
    (fun _ _ _ => rfl) (fun _ _ _ => rfl)
